import Mathlib

/-!
Verification of the ProBuild marketplace backend (src/app.py) against its
natural-language specification.

The Flask route handlers are embedded shallowly: the Supabase store is an
explicit `DB` value, each handler is a pure function from the session, the
store and the request data to the new store (or an `Except` for JSON-error
responses).  Currency values are carried over `ℚ`.  The source computes
the settlement split in Python binary64 floats; the route embeddings
carry the split as the exact rationals `amount * 85/100` and
`amount * 15/100` — adequate for the claims about statuses, guards, row
counts and flags — while the float rounding itself, which the exact-sum
claim depends on, is modelled separately and faithfully by `fl64` /
`fmul` / `fadd` (round to 53 significant bits, nearest, ties to even).
Supabase semantics: `select ... .eq(k, v)` followed by `data[0]` is
`List.find?`; `update ... .eq(k, v)` rewrites every matching row;
`insert` appends a row.
-/

namespace ProBuild

/-- Onboarding stage of an artisan account. -/
inductive Stage where
  | docs
  | payment
  | complete
deriving DecidableEq, Repr

/-- Row of the `artisans` table (fields used by the core routes). -/
structure Artisan where
  id : Nat
  full_name : String
  phone : String
  password : String
  trade : String
  region : String
  town : String
  digital_address : String
  location : String
  price_range : Int
  has_certificate : Bool
  is_verified : Bool
  subscription_active : Bool
  status : String
  rating : ℚ
deriving DecidableEq, Repr

/-- Row of the `jobs` table. -/
structure Job where
  id : Nat
  client_id : Nat
  artisan_id : Option Nat
  job_title : String
  location : String
  amount : ℚ
  status : String
  rating : Option String
  review : Option String
  notify_others : Bool
deriving DecidableEq, Repr

/-- Row of the `payments` table. -/
structure Payment where
  job_id : Nat
  artisan_id : Option Nat
  client_id : Nat
  total_amount : ℚ
  artisan_amount : ℚ
  platform_commission : ℚ
  status : String
deriving DecidableEq, Repr

/-- Row of the `withdrawals` table. -/
structure Withdrawal where
  artisan_id : Nat
  amount : ℚ
  method : String
  status : String
deriving DecidableEq, Repr

/-- Row of the `notifications` table (fire-and-forget sink). -/
structure Notice where
  user_id : Nat
  title : String
  typ : String
deriving DecidableEq, Repr

/-- The persistent store: the tables touched by the core routes, plus the
autoincrement counter used for inserted row ids. -/
structure DB where
  artisans : List Artisan
  jobs : List Job
  payments : List Payment
  withdrawals : List Withdrawal
  notices : List Notice
  next_id : Nat
deriving DecidableEq, Repr

/-- The Flask session: `user_id` present iff logged in, plus the role string. -/
structure Session where
  user_id : Option Nat
  user_name : String
  role : String
deriving DecidableEq, Repr

/-- Route `POST /complete_job/<job_id>` (src/app.py, `complete_job`, lines 382-427).
Requires only that some user is logged in; fetches the job's `amount` and
`artisan_id`, updates the job to `Completed` with the submitted rating and
review, and inserts a payment with `artisan_amount = amount * 0.85`,
`platform_commission = amount * 0.15`, status `Completed`, and `client_id`
taken from the session.  The two multiplications appear here as exact
rational products; their binary64 rounding in the running program is
modelled by `fl64`/`fmul`/`fadd` and `settle_float` below. -/
def complete_job (sess : Session) (db : DB) (job_id : Nat)
    (rating review : String) : DB :=
  match sess.user_id with
  | none => db
  | some uid =>
    match db.jobs.find? (fun j => j.id == job_id) with
    | none => db
    | some job =>
      let amount := job.amount
      let artisan_amount := amount * (85 / 100)
      let platform_commission := amount * (15 / 100)
      { db with
        jobs := db.jobs.map (fun j =>
          if j.id == job_id then
            { j with status := "Completed", rating := some rating,
                     review := some review }
          else j),
        payments := db.payments ++ [{
          job_id := job_id, artisan_id := job.artisan_id, client_id := uid,
          total_amount := amount, artisan_amount := artisan_amount,
          platform_commission := platform_commission,
          status := "Completed" }] }

/-- Route `POST /artisan/complete-job/<job_id>` (src/app.py,
`artisan_complete_job`, lines 1176-1221).  Requires an artisan session;
fetches the job's `amount` and `client_id`, updates the job to `Completed`,
inserts a payment with status `Processing` whose `artisan_id` is the
session user, and notifies the client.  As in `complete_job`, the split
appears as exact rational products; the program's float rounding of the
same two expressions is modelled by `settle_float`. -/
def artisan_complete_job (sess : Session) (db : DB) (job_id : Nat) : DB :=
  match sess.user_id with
  | none => db
  | some uid =>
    if sess.role != "artisan" then db
    else
      match db.jobs.find? (fun j => j.id == job_id) with
      | none => db
      | some job =>
        let amount := job.amount
        let artisan_amount := amount * (85 / 100)
        let platform_commission := amount * (15 / 100)
        { db with
          jobs := db.jobs.map (fun j =>
            if j.id == job_id then { j with status := "Completed" } else j),
          payments := db.payments ++ [{
            job_id := job_id, artisan_id := some uid,
            client_id := job.client_id,
            total_amount := amount, artisan_amount := artisan_amount,
            platform_commission := platform_commission,
            status := "Processing" }],
          notices := db.notices ++ [{
            user_id := job.client_id, title := "Job Completed",
            typ := "job_complete" }] }

/-- Route `POST /artisan/accept-job/<job_id>` (src/app.py, `accept_job`, lines
1120-1149).  Requires an artisan session; unconditionally updates every job
row with the given id to `artisan_id := session user, status := "In
Progress"`, then re-reads the job to notify its client. -/
def accept_job (sess : Session) (db : DB) (job_id : Nat) : DB :=
  match sess.user_id with
  | none => db
  | some uid =>
    if sess.role != "artisan" then db
    else
      let db' : DB := { db with
        jobs := db.jobs.map (fun j =>
          if j.id == job_id then
            { j with artisan_id := some uid, status := "In Progress" }
          else j) }
      match db'.jobs.find? (fun j => j.id == job_id) with
      | none => db'
      | some job =>
        { db' with notices := db'.notices ++ [{
            user_id := job.client_id, title := "Job Accepted",
            typ := "job_update" }] }

/-- Route `POST /book/<artisan_id>` (src/app.py, `book_artisan`, lines 136-182).
Requires a logged-in user; fetches the artisan filtered by `id` and
`is_verified = True` only, and on the POST branch inserts a Pending job
whose amount is the artisan's `price_range`.  If no such artisan row
exists, no job is created. -/
def book_artisan (sess : Session) (db : DB) (artisan_id : Nat)
    (location job_title : String) (notify_others : Bool) : DB :=
  match sess.user_id with
  | none => db
  | some uid =>
    match db.artisans.find? (fun a => a.id == artisan_id && a.is_verified) with
    | none => db
    | some artisan =>
      { db with
        jobs := db.jobs ++ [{
          id := db.next_id, client_id := uid, artisan_id := some artisan_id,
          job_title := job_title, location := location,
          amount := (artisan.price_range : ℚ), status := "Pending",
          rating := none, review := none, notify_others := notify_others }],
        next_id := db.next_id + 1 }

/-- Parsed form data of `POST /artisan/register` (`price_range` is the
result of the `int(...)` parse, which defaults to 0 on failure). -/
structure RegForm where
  full_name : String
  phone : String
  password : String
  trade : String
  region : String
  town : String
  digital_address : String
  price_range : Int
  has_certificate : Bool
deriving DecidableEq, Repr

/-- Route `POST /artisan/register` (src/app.py, `artisan_register`, lines
579-654).  Rejects a price above 500 before any store access, then rejects
a duplicate phone, otherwise inserts the artisan with `is_verified =
false` and `subscription_active = false`.  `.error` carries the flash
message of the rejecting redirect; on rejection no row is inserted. -/
def artisan_register (db : DB) (f : RegForm) : Except String DB :=
  if f.price_range > 500 then .error "Base fee cannot exceed GHS 500"
  else if db.artisans.any (fun a => a.phone == f.phone) then
    .error "Phone number already registered"
  else .ok { db with
    artisans := db.artisans ++ [{
      id := db.next_id, full_name := f.full_name, phone := f.phone,
      password := f.password, trade := f.trade, region := f.region,
      town := f.town, digital_address := f.digital_address,
      location := f.town ++ ", " ++ f.region,
      price_range := f.price_range, has_certificate := f.has_certificate,
      is_verified := false, subscription_active := false,
      status := "Available", rating := 5 }],
    next_id := db.next_id + 1 }

/-- The `total_earned` value of `request_withdrawal`: sum of `artisan_amount` over the
artisan's payments with status `Completed` (src/app.py lines 1323-1329). -/
def total_earned (db : DB) (uid : Nat) : ℚ :=
  ((db.payments.filter
      (fun p => p.artisan_id == some uid && p.status == "Completed")).map
    Payment.artisan_amount).sum

/-- The `total_withdrawn` value of `request_withdrawal`: sum of `amount` over the
artisan's withdrawals with status `approved` (src/app.py lines 1332-1338). -/
def total_withdrawn (db : DB) (uid : Nat) : ℚ :=
  ((db.withdrawals.filter
      (fun w => w.artisan_id == uid && w.status == "approved")).map
    Withdrawal.amount).sum

/-- The `available_balance` value of `request_withdrawal` (src/app.py line 1340). -/
def available_balance (db : DB) (uid : Nat) : ℚ :=
  total_earned db uid - total_withdrawn db uid

/-- Route `POST /artisan/request-withdrawal` (src/app.py, `request_withdrawal`,
lines 1306-1366).  Requires an artisan session; rejects `amount < 10`
before any store access, then rejects `amount > available_balance`,
otherwise inserts a `pending` withdrawal and notifies the admin (id 999). -/
def request_withdrawal (sess : Session) (db : DB) (amount : ℚ)
    (method : String) : Except String DB :=
  match sess.user_id with
  | none => .error "Unauthorized"
  | some uid =>
    if sess.role != "artisan" then .error "Unauthorized"
    else if amount < 10 then .error "Minimum withdrawal is GHS 10"
    else if amount > available_balance db uid then
      .error "Insufficient balance"
    else .ok { db with
      withdrawals := db.withdrawals ++ [{
        artisan_id := uid, amount := amount, method := method,
        status := "pending" }],
      notices := db.notices ++ [{
        user_id := 999, title := "Withdrawal Request",
        typ := "withdrawal" }] }

/-- Stage routing of `/login` for an artisan row (src/app.py lines
511-518): `not is_verified` → docs page, `not subscription_active` →
payment page, else the artisan dashboard (full access). -/
def login_stage (is_verified subscription_active : Bool) : Stage :=
  if !is_verified then .docs
  else if !subscription_active then .payment
  else .complete

/-- Stage routing of `/artisan/check-status-page` (src/app.py lines
555-563): same chain of checks as the login route. -/
def check_status_page_stage (is_verified subscription_active : Bool) : Stage :=
  if !is_verified then .docs
  else if !subscription_active then .payment
  else .complete

/-- Stage routing of `POST /artisan/login` (src/app.py lines 1554-1561):
same chain of checks as the login route. -/
def artisan_login_stage (is_verified subscription_active : Bool) : Stage :=
  if !is_verified then .docs
  else if !subscription_active then .payment
  else .complete

/-- Stage resolution of `/pending/<stage>` (src/app.py, `pending_approval`,
lines 1458-1464): the `actual_stage` recomputed from the database row. -/
def pending_approval_stage (is_verified subscription_active : Bool) : Stage :=
  if is_verified && subscription_active then .complete
  else if is_verified && !subscription_active then .payment
  else .docs

/-- Modelled from the spec: `resolveStage(artisan)` — `!is_verified →
docs`; `is_verified && !subscription_active → payment`; both true →
`complete` (spec §4.1). -/
def resolveStage (is_verified subscription_active : Bool) : Stage :=
  if !is_verified then .docs
  else if !subscription_active then .payment
  else .complete

/-- Modelled from the spec: `round(x, 2)` — round to two decimal places
(nearest hundredth; the counterexamples below avoid ties, where Python's
half-to-even and Mathlib's half-up could differ). -/
def roundTo2 (q : ℚ) : ℚ := (round (q * 100) : ℚ) / 100

/-- Round a rational to the nearest integer, ties to even — the rounding
direction of IEEE 754 round-to-nearest, the mode Python floats use. -/
def rnEven (q : ℚ) : ℤ :=
  let f : ℤ := ⌊q⌋
  if q - f < 1 / 2 then f
  else if q - f > 1 / 2 then f + 1
  else if f % 2 = 0 then f else f + 1

/-- Binade exponent of a positive rational: the `e` with `2^e ≤ q <
2^(e+1)`, written out for the range `[2^-8, 2^8)`, which covers every
magnitude occurring in the amount-13 evaluation below. -/
def binade (q : ℚ) : ℤ :=
  if q < (2 : ℚ) ^ (-7 : ℤ) then -8
  else if q < (2 : ℚ) ^ (-6 : ℤ) then -7
  else if q < (2 : ℚ) ^ (-5 : ℤ) then -6
  else if q < (2 : ℚ) ^ (-4 : ℤ) then -5
  else if q < (2 : ℚ) ^ (-3 : ℤ) then -4
  else if q < (2 : ℚ) ^ (-2 : ℤ) then -3
  else if q < (2 : ℚ) ^ (-1 : ℤ) then -2
  else if q < 1 then -1
  else if q < 2 then 0
  else if q < 4 then 1
  else if q < 8 then 2
  else if q < 16 then 3
  else if q < 32 then 4
  else if q < 64 then 5
  else if q < 128 then 6
  else 7

/-- Nearest IEEE binary64 value of a positive rational in `[2^-8, 2^8)`:
round to 53 significant bits, i.e. to the grid of spacing `2^(e-52)` on
the binade `[2^e, 2^(e+1))`, ties to even.  This is the value the Python
runtime stores for a float literal or float result of this magnitude. -/
def fl64 (q : ℚ) : ℚ :=
  let e := binade q
  (rnEven (q / (2 : ℚ) ^ (e - 52)) : ℚ) * (2 : ℚ) ^ (e - 52)

/-- Binary64 product: the exact product, rounded to the nearest double —
the semantics of Python's `*` on floats. -/
def fmul (x y : ℚ) : ℚ := fl64 (x * y)

/-- Binary64 sum: the exact sum, rounded to the nearest double — the
semantics of Python's `+` on floats. -/
def fadd (x y : ℚ) : ℚ := fl64 (x + y)

/-- The settlement split as the Python runtime actually evaluates it at
src/app.py lines 399-400 and 1189-1190: `amount * 0.85` and
`amount * 0.15` in IEEE binary64, the literals `0.85` and `0.15` being
themselves the nearest doubles of those decimals. -/
def settle_float (amount : ℚ) : ℚ × ℚ :=
  (fmul amount (fl64 (85 / 100)), fmul amount (fl64 (15 / 100)))

/-- Unfolding of `complete_job` when the requester is logged in and the job
row exists: the job is updated and the split payment is appended. -/
lemma complete_job_eq (sess : Session) (db : DB) (jid : Nat) (r rv : String)
    (uid : Nat) (j : Job) (hu : sess.user_id = some uid)
    (hj : db.jobs.find? (fun j0 => j0.id == jid) = some j) :
    complete_job sess db jid r rv = { db with
      jobs := db.jobs.map (fun j0 =>
        if j0.id == jid then
          { j0 with status := "Completed", rating := some r,
                    review := some rv }
        else j0),
      payments := db.payments ++ [{
        job_id := jid, artisan_id := j.artisan_id, client_id := uid,
        total_amount := j.amount, artisan_amount := j.amount * (85 / 100),
        platform_commission := j.amount * (15 / 100),
        status := "Completed" }] } := by
  simp only [complete_job, hu, hj]

/-- Unfolding of `artisan_complete_job` for an artisan session when the job
row exists. -/
lemma artisan_complete_job_eq (sess : Session) (db : DB) (jid : Nat)
    (uid : Nat) (j : Job) (hu : sess.user_id = some uid)
    (hrole : sess.role = "artisan")
    (hj : db.jobs.find? (fun j0 => j0.id == jid) = some j) :
    artisan_complete_job sess db jid = { db with
      jobs := db.jobs.map (fun j0 =>
        if j0.id == jid then { j0 with status := "Completed" } else j0),
      payments := db.payments ++ [{
        job_id := jid, artisan_id := some uid, client_id := j.client_id,
        total_amount := j.amount, artisan_amount := j.amount * (85 / 100),
        platform_commission := j.amount * (15 / 100),
        status := "Processing" }],
      notices := db.notices ++ [{
        user_id := j.client_id, title := "Job Completed",
        typ := "job_complete" }] } := by
  simp only [artisan_complete_job, hu, hrole, bne_self_eq_false,
    Bool.false_eq_true, if_false, hj]

/-- Demo fixtures used by the witnesses. -/
def demoJob : Job :=
  { id := 1, client_id := 2, artisan_id := some 3, job_title := "Fix door",
    location := "Accra", amount := 150, status := "In Progress",
    rating := none, review := none, notify_others := false }

def demoDB : DB :=
  { artisans := [], jobs := [demoJob], payments := [], withdrawals := [],
    notices := [], next_id := 2 }

def demoArtisanSess : Session :=
  { user_id := some 3, user_name := "Ama", role := "artisan" }

/-- C1 (code bug): the program computes the split in Python binary64
floats, where the exact-sum invariant fails at reachable amounts.  At
amount 13 (an ordinary registered price, well under the 500 cap) the two
stored values are `6220596985305497/2^49` = 11.049999999999999… and
`8782019273372467/2^52` — the nearest double to 1.95, so it prints as
1.95 — and their float sum is `7318349394477055/2^49` =
12.999999999999998 ≠ 13: `artisan_amount + platform_commission == A`
fails on the program as it runs. -/
theorem claim_C1_float_sum_bug :
    (settle_float 13).1 = 6220596985305497 / 2 ^ 49 ∧
    (settle_float 13).2 = 8782019273372467 / 2 ^ 52 ∧
    (settle_float 13).2 = fl64 (195 / 100) ∧
    fadd (settle_float 13).1 (settle_float 13).2 =
      7318349394477055 / 2 ^ 49 ∧
    fadd (settle_float 13).1 (settle_float 13).2 ≠ 13 := by
  have h85 : fl64 (85 / 100) = 7656119366529843 / 2 ^ 53 := by
    norm_num [fl64, binade, rnEven]
  have h15 : fl64 (15 / 100) = 5404319552844595 / 2 ^ 55 := by
    norm_num [fl64, binade, rnEven]
  have hA : fmul 13 (7656119366529843 / 2 ^ 53) =
      6220596985305497 / 2 ^ 49 := by
    norm_num [fmul, fl64, binade, rnEven]
  have hB : fmul 13 (5404319552844595 / 2 ^ 55) =
      8782019273372467 / 2 ^ 52 := by
    norm_num [fmul, fl64, binade, rnEven]
  have h195 : fl64 (195 / 100) = 8782019273372467 / 2 ^ 52 := by
    norm_num [fl64, binade, rnEven]
  have hS : fadd ((6220596985305497 : ℚ) / 2 ^ 49)
      ((8782019273372467 : ℚ) / 2 ^ 52) = 7318349394477055 / 2 ^ 49 := by
    norm_num [fadd, fl64, binade, rnEven]
  have p1 : (settle_float 13).1 = 6220596985305497 / 2 ^ 49 := by
    show fmul 13 (fl64 (85 / 100)) = 6220596985305497 / 2 ^ 49
    rw [h85, hA]
  have p2 : (settle_float 13).2 = 8782019273372467 / 2 ^ 52 := by
    show fmul 13 (fl64 (15 / 100)) = 8782019273372467 / 2 ^ 52
    rw [h15, hB]
  refine ⟨p1, p2, by rw [p2, h195], ?_, ?_⟩
  · rw [p1, p2, hS]
  · rw [p1, p2, hS]; norm_num

/-- C6: the onboarding stage is the spec's pure function of
`(is_verified, subscription_active)`, and the login, artisan-login,
status-check and pending-page routes all apply that same rule. -/
theorem claim_C6 : ∀ v s : Bool,
    resolveStage v s =
      (if v = false then Stage.docs
       else if s = false then Stage.payment
       else Stage.complete) ∧
    login_stage v s = resolveStage v s ∧
    artisan_login_stage v s = resolveStage v s ∧
    check_status_page_stage v s = resolveStage v s ∧
    pending_approval_stage v s = resolveStage v s := by
  decide

/-- C9: the Payment created by the client-confirmation path has status
`Completed`, and the one created by the artisan-completion path has status
`Processing`. -/
theorem claim_C9 (sess : Session) (db : DB) (jid : Nat) (r rv : String)
    (uid : Nat) (j : Job) (hu : sess.user_id = some uid)
    (hrole : sess.role = "artisan")
    (hj : db.jobs.find? (fun j0 => j0.id == jid) = some j) :
    (∃ p : Payment,
      (complete_job sess db jid r rv).payments = db.payments ++ [p] ∧
        p.status = "Completed") ∧
    (∃ p : Payment,
      (artisan_complete_job sess db jid).payments = db.payments ++ [p] ∧
        p.status = "Processing") := by
  constructor
  · exact ⟨_, by rw [complete_job_eq sess db jid r rv uid j hu hj], rfl⟩
  · exact ⟨_, by rw [artisan_complete_job_eq sess db jid uid j hu hrole hj],
      rfl⟩

/-- Witness for C9 at the concrete store. -/
theorem claim_C9_witness :
    (∃ p : Payment,
      (complete_job demoArtisanSess demoDB 1 "4" "ok").payments =
          demoDB.payments ++ [p] ∧ p.status = "Completed") ∧
    (∃ p : Payment,
      (artisan_complete_job demoArtisanSess demoDB 1).payments =
          demoDB.payments ++ [p] ∧ p.status = "Processing") :=
  claim_C9 demoArtisanSess demoDB 1 "4" "ok" 3 demoJob rfl rfl rfl

/-- C10: `POST /complete_job/<id>` only requires a logged-in session — the
session's role and its relation to the job's owner are arbitrary — and the
created Payment records the requester's session id as `client_id`. -/
theorem claim_C10 (sess : Session) (db : DB) (jid : Nat) (r rv : String)
    (uid : Nat) (j : Job) (hu : sess.user_id = some uid)
    (hj : db.jobs.find? (fun j0 => j0.id == jid) = some j) :
    (complete_job sess db jid r rv).jobs = db.jobs.map (fun j0 =>
      if j0.id == jid then
        { j0 with status := "Completed", rating := some r,
                  review := some rv }
      else j0) ∧
    ∃ p : Payment,
      (complete_job sess db jid r rv).payments = db.payments ++ [p] ∧
        p.client_id = uid := by
  rw [complete_job_eq sess db jid r rv uid j hu hj]
  exact ⟨rfl, _, rfl, rfl⟩

/-- C5: `request_withdrawal` fails when the requested amount is below the
minimum of 10 — this check precedes the balance computation, so a request
of 5 is rejected regardless of balance — or when it exceeds the available
balance (Completed-payment earnings minus approved withdrawals); otherwise
it appends a pending Withdrawal (and an admin notification). -/
theorem claim_C5 (sess : Session) (db : DB) (amount : ℚ) (method : String)
    (uid : Nat) (hu : sess.user_id = some uid)
    (hrole : sess.role = "artisan") :
    (amount < 10 →
      request_withdrawal sess db amount method =
        .error "Minimum withdrawal is GHS 10") ∧
    (¬ amount < 10 → amount > available_balance db uid →
      request_withdrawal sess db amount method =
        .error "Insufficient balance") ∧
    (¬ amount < 10 → ¬ amount > available_balance db uid →
      request_withdrawal sess db amount method = .ok { db with
        withdrawals := db.withdrawals ++ [{
          artisan_id := uid, amount := amount, method := method,
          status := "pending" }],
        notices := db.notices ++ [{
          user_id := 999, title := "Withdrawal Request",
          typ := "withdrawal" }] }) := by
  refine ⟨fun h => ?_, fun h1 h2 => ?_, fun h1 h2 => ?_⟩
  · simp [request_withdrawal, hu, hrole, h]
  · simp [request_withdrawal, hu, hrole, h1, h2]
  · simp [request_withdrawal, hu, hrole, h1, h2]

/-- A settled payment of 127.50 and an approved withdrawal of 20 for
artisan 3: available balance 107.50. -/
def c5Payment : Payment :=
  { job_id := 1, artisan_id := some 3, client_id := 2, total_amount := 150,
    artisan_amount := 255 / 2, platform_commission := 45 / 2,
    status := "Completed" }

def c5Withdrawal : Withdrawal :=
  { artisan_id := 3, amount := 20, method := "momo", status := "approved" }

def c5DB : DB :=
  { artisans := [], jobs := [], payments := [c5Payment],
    withdrawals := [c5Withdrawal], notices := [], next_id := 5 }

/-- Witness for C5: a request of 5 is rejected below the minimum, and a
request of 50 against the balance of 107.50 succeeds as a pending
Withdrawal. -/
theorem claim_C5_witness :
    request_withdrawal demoArtisanSess c5DB 5 "momo" =
      .error "Minimum withdrawal is GHS 10" ∧
    request_withdrawal demoArtisanSess c5DB 50 "momo" = .ok { c5DB with
      withdrawals := c5DB.withdrawals ++ [{
        artisan_id := 3, amount := 50, method := "momo",
        status := "pending" }],
      notices := c5DB.notices ++ [{
        user_id := 999, title := "Withdrawal Request",
        typ := "withdrawal" }] } := by
  have hbal : available_balance c5DB 3 = 215 / 2 := by
    simp [available_balance, total_earned, total_withdrawn, c5DB,
      c5Payment, c5Withdrawal]
    norm_num
  constructor
  · exact (claim_C5 demoArtisanSess c5DB 5 "momo" 3 rfl rfl).1 (by norm_num)
  · exact (claim_C5 demoArtisanSess c5DB 50 "momo" 3 rfl rfl).2.2
      (by norm_num) (by rw [hbal]; norm_num)

/-- C7 as amended: `POST /book/<artisan_id>` creates a Job only against an
artisan row matching `id` with `is_verified = true` — the
`subscription_active` flag is not consulted; when no verified row matches,
the store is unchanged.  The created job is Pending with the artisan's
`price_range` as amount. -/
theorem claim_C7 (sess : Session) (db : DB) (aid : Nat)
    (loc title : String) (n : Bool) (uid : Nat)
    (hu : sess.user_id = some uid) :
    (db.artisans.find? (fun a => a.id == aid && a.is_verified) = none →
      book_artisan sess db aid loc title n = db) ∧
    (∀ a : Artisan,
      db.artisans.find? (fun a0 => a0.id == aid && a0.is_verified) =
        some a →
      (book_artisan sess db aid loc title n).jobs = db.jobs ++ [{
        id := db.next_id, client_id := uid, artisan_id := some aid,
        job_title := title, location := loc,
        amount := (a.price_range : ℚ), status := "Pending",
        rating := none, review := none, notify_others := n }]) := by
  constructor
  · intro h; simp only [book_artisan, hu, h]
  · intro a ha; simp only [book_artisan, hu, ha]

/-- An artisan who is verified but has no active subscription. -/
def c7Artisan : Artisan :=
  { id := 1, full_name := "Kofi", phone := "0241", password := "pw",
    trade := "Carpenter", region := "Greater Accra", town := "Accra",
    digital_address := "GA-1", location := "Accra, Greater Accra",
    price_range := 150, has_certificate := true, is_verified := true,
    subscription_active := false, status := "Available", rating := 5 }

def c7DB : DB :=
  { artisans := [c7Artisan], jobs := [], payments := [], withdrawals := [],
    notices := [], next_id := 1 }

def clientSess : Session :=
  { user_id := some 4, user_name := "Cee", role := "general" }

/-- C7 counterexample: booking artisan 1, who is verified but NOT
subscription-active, still creates a Job — the route only filters on
`is_verified`. -/
theorem claim_C7_counterexample :
    c7Artisan.is_verified = true ∧
    c7Artisan.subscription_active = false ∧
    (book_artisan clientSess c7DB 1 "Accra" "Fix door" false).jobs.length
      = 1 := by
  decide

/-- An artisan who is verified and subscription-active. -/
def proArtisan : Artisan :=
  { id := 1, full_name := "Kofi Mensah", phone := "0242", password := "pw",
    trade := "Carpenter", region := "Greater Accra", town := "Accra",
    digital_address := "GA-2", location := "Accra, Greater Accra",
    price_range := 150, has_certificate := true, is_verified := true,
    subscription_active := true, status := "Available", rating := 5 }

def proDB : DB :=
  { artisans := [proArtisan], jobs := [], payments := [], withdrawals := [],
    notices := [], next_id := 7 }

/-- Witness for the amended C7: booking the verified artisan 1 creates the
Pending job at their price, and booking the absent artisan 99 leaves the
store unchanged. -/
theorem claim_C7_witness :
    (book_artisan clientSess proDB 1 "Accra" "Fix door" false).jobs =
      proDB.jobs ++ [{
        id := proDB.next_id, client_id := 4, artisan_id := some 1,
        job_title := "Fix door", location := "Accra",
        amount := (proArtisan.price_range : ℚ), status := "Pending",
        rating := none, review := none, notify_others := false }] ∧
    book_artisan clientSess proDB 99 "Accra" "Fix door" false = proDB := by
  constructor
  · exact (claim_C7 clientSess proDB 1 "Accra" "Fix door" false 4 rfl).2
      proArtisan rfl
  · exact (claim_C7 clientSess proDB 99 "Accra" "Fix door" false 4 rfl).1
      rfl

/-- C8: registration with a price above 500 is rejected before any insert,
and a successful registration inserts the artisan with
`is_verified = false` and `subscription_active = false`. -/
theorem claim_C8 (db : DB) (f : RegForm) :
    (f.price_range > 500 →
      artisan_register db f = .error "Base fee cannot exceed GHS 500") ∧
    (∀ db', artisan_register db f = .ok db' →
      ∃ a : Artisan, db'.artisans = db.artisans ++ [a] ∧
        a.is_verified = false ∧ a.subscription_active = false) := by
  constructor
  · intro h; simp [artisan_register, h]
  · intro db' h
    unfold artisan_register at h
    split_ifs at h with h1 h2
    all_goals first
      | exact Except.noConfusion h
      | (rw [Except.ok.injEq] at h
         subst h
         exact ⟨_, rfl, rfl, rfl⟩)

def emptyDB : DB :=
  { artisans := [], jobs := [], payments := [], withdrawals := [],
    notices := [], next_id := 1 }

def f600 : RegForm :=
  { full_name := "X", phone := "020", password := "pw", trade := "Mason",
    region := "Ashanti", town := "Kumasi", digital_address := "AK-1",
    price_range := 600, has_certificate := false }

def f150 : RegForm :=
  { full_name := "Y", phone := "021", password := "pw", trade := "Mason",
    region := "Ashanti", town := "Kumasi", digital_address := "AK-2",
    price_range := 150, has_certificate := true }

/-- The store produced by the successful registration of `f150`. -/
def c8RegOut : DB := (artisan_register emptyDB f150).toOption.getD emptyDB

/-- Witness for C8: price 600 is rejected with no insert; price 150
registers an artisan with both gating flags false. -/
theorem claim_C8_witness :
    artisan_register emptyDB f600 =
      .error "Base fee cannot exceed GHS 500" ∧
    ∃ a : Artisan, c8RegOut.artisans = emptyDB.artisans ++ [a] ∧
      a.is_verified = false ∧ a.subscription_active = false := by
  exact ⟨(claim_C8 emptyDB f600).1 (by decide),
    (claim_C8 emptyDB f150).2 c8RegOut rfl⟩

/-- A logged-in user with role `general` who does not own `demoJob`. -/
def mallorySess : Session :=
  { user_id := some 42, user_name := "Mallory", role := "general" }

/-- C2 (code bug): neither completion handler guards on the job's current
status, so a sequential double submit inserts two Payment rows for the same
job — here job 1 is completed twice through the client-confirmation path
and the store ends with two payments for job 1, the second invocation
neither rejected nor a no-op. -/
theorem claim_C2_duplicate_payment :
    ((complete_job demoArtisanSess
          (complete_job demoArtisanSess demoDB 1 "5" "great")
          1 "5" "great").payments.filter
        (fun p => p.job_id == 1)).length = 2 ∧
    ((artisan_complete_job demoArtisanSess
          (complete_job demoArtisanSess demoDB 1 "5" "great")
          1).payments.filter
        (fun p => p.job_id == 1)).length = 2 := by
  decide

/-- Job of fractional amount 0.33, reachable through the admin job-editing
and assignment routes which accept arbitrary amounts. -/
def fracJob : Job :=
  { id := 1, client_id := 2, artisan_id := some 3, job_title := "Patch",
    location := "Accra", amount := 33 / 100, status := "In Progress",
    rating := none, review := none, notify_others := false }

def fracDB : DB :=
  { artisans := [], jobs := [fracJob], payments := [], withdrawals := [],
    notices := [], next_id := 2 }

/-- C3 counterexample: the source performs no rounding.  On a job of amount
0.33 the client-completion path stores `artisan_amount = 0.2805`, while the
claim's formula `round(amount * 0.85, 2)` gives 0.28; likewise the stored
commission 0.0495 is not the remainder `amount - round(amount * 0.85, 2) =
0.05`. -/
theorem claim_C3_counterexample :
    (complete_job demoArtisanSess fracDB 1 "5" "ok").payments.map
        Payment.artisan_amount = [2805 / 10000] ∧
    roundTo2 (fracJob.amount * (85 / 100)) = 28 / 100 ∧
    (2805 / 10000 : ℚ) ≠ 28 / 100 ∧
    (complete_job demoArtisanSess fracDB 1 "5" "ok").payments.map
        Payment.platform_commission = [495 / 10000] ∧
    fracJob.amount - roundTo2 (fracJob.amount * (85 / 100)) ≠
      495 / 10000 := by
  have h := complete_job_eq demoArtisanSess fracDB 1 "5" "ok" 3 fracJob
    rfl rfl
  refine ⟨?_, ?_, by norm_num, ?_, ?_⟩
  · rw [h]; norm_num [fracDB, fracJob]
  · show roundTo2 ((33 : ℚ) / 100 * (85 / 100)) = 28 / 100
    norm_num [roundTo2, round_eq]
  · rw [h]; norm_num [fracDB, fracJob]
  · show (33 : ℚ) / 100 - roundTo2 ((33 : ℚ) / 100 * (85 / 100)) ≠
      495 / 10000
    norm_num [roundTo2, round_eq]

/-- C3 as amended: the settlement stores `artisan_amount = amount * 0.85`
with no rounding and `platform_commission = amount * 0.15` computed
independently; over the exact-rational model the commission still equals
the remainder `amount - artisan_amount`, on both completion paths. -/
theorem claim_C3 (sess : Session) (db : DB) (jid : Nat) (r rv : String)
    (uid : Nat) (j : Job) (hu : sess.user_id = some uid)
    (hrole : sess.role = "artisan")
    (hj : db.jobs.find? (fun j0 => j0.id == jid) = some j) :
    (∃ p : Payment,
      (complete_job sess db jid r rv).payments = db.payments ++ [p] ∧
        p.artisan_amount = j.amount * (85 / 100) ∧
        p.platform_commission = j.amount * (15 / 100) ∧
        p.platform_commission = j.amount - p.artisan_amount) ∧
    (∃ p : Payment,
      (artisan_complete_job sess db jid).payments = db.payments ++ [p] ∧
        p.artisan_amount = j.amount * (85 / 100) ∧
        p.platform_commission = j.amount * (15 / 100) ∧
        p.platform_commission = j.amount - p.artisan_amount) := by
  constructor
  · exact ⟨_, by rw [complete_job_eq sess db jid r rv uid j hu hj], rfl, rfl,
      by show j.amount * (15 / 100) = j.amount - j.amount * (85 / 100); ring⟩
  · exact ⟨_, by rw [artisan_complete_job_eq sess db jid uid j hu hrole hj],
      rfl, rfl,
      by show j.amount * (15 / 100) = j.amount - j.amount * (85 / 100); ring⟩

/-- Witness for the amended C3 at the concrete store. -/
theorem claim_C3_witness :
    (∃ p : Payment,
      (complete_job demoArtisanSess demoDB 1 "5" "great").payments =
          demoDB.payments ++ [p] ∧
        p.artisan_amount = demoJob.amount * (85 / 100) ∧
        p.platform_commission = demoJob.amount * (15 / 100) ∧
        p.platform_commission = demoJob.amount - p.artisan_amount) ∧
    (∃ p : Payment,
      (artisan_complete_job demoArtisanSess demoDB 1).payments =
          demoDB.payments ++ [p] ∧
        p.artisan_amount = demoJob.amount * (85 / 100) ∧
        p.platform_commission = demoJob.amount * (15 / 100) ∧
        p.platform_commission = demoJob.amount - p.artisan_amount) :=
  claim_C3 demoArtisanSess demoDB 1 "5" "great" 3 demoJob rfl rfl rfl

/-- A job that is already assigned (to artisan 7) and already In Progress. -/
def c4Job : Job :=
  { id := 1, client_id := 10, artisan_id := some 7, job_title := "Tile",
    location := "Kasoa", amount := 100, status := "In Progress",
    rating := none, review := none, notify_others := false }

def c4DB : DB :=
  { artisans := [], jobs := [c4Job], payments := [], withdrawals := [],
    notices := [], next_id := 2 }

def c4Sess : Session :=
  { user_id := some 9, user_name := "Second", role := "artisan" }

/-- C4 (code bug): `accept_job` writes the assignment unconditionally,
with no condition on the job's status or current `artisan_id`.  On a job
that is already In Progress and assigned to artisan 7, an accept by
artisan 9 overwrites the assignment instead of leaving the job unchanged. -/
theorem claim_C4_accept_overwrites :
    c4Job.status = "In Progress" ∧ c4Job.artisan_id = some 7 ∧
    (accept_job c4Sess c4DB 1).jobs.map (fun j => (j.artisan_id, j.status))
      = [(some 9, "In Progress")] := by
  decide

/-- Witness for C10: user 42 with role `general`, who is not the job's
client (the job's client is 2), completes job 1 and is recorded as the
payment's `client_id`. -/
theorem claim_C10_witness :
    (complete_job mallorySess demoDB 1 "1" "x").jobs =
      demoDB.jobs.map (fun j0 =>
        if j0.id == 1 then
          { j0 with status := "Completed", rating := some "1",
                    review := some "x" }
        else j0) ∧
    ∃ p : Payment,
      (complete_job mallorySess demoDB 1 "1" "x").payments =
        demoDB.payments ++ [p] ∧ p.client_id = 42 :=
  claim_C10 mallorySess demoDB 1 "1" "x" 42 demoJob rfl rfl

end ProBuild
